import Mathlib

/-!
Verification of the daydreamer view-dispatch and request-pipeline library.

This file gives a shallow embedding of the parts of the library that the
claims concern:

* the cooperative deny/allow decision chain
  (`daydreamer/views/core/base.py`: `Core`, `Null`, `Allow`, `Deny`),
* the HTTP-method gates (`daydreamer/views/core/http.py`),
* the `Denial` behavior framework (`daydreamer/views/core/behaviors.py`),
* URL helpers (`daydreamer/core/urlresolvers.py`: `reverse`,
  `simplify_redirect`, `update_query`),
* the refactored request handler (`daydreamer/core/handlers/base.py`).

Machine-level details that are external collaborators (database, template
rendering, percent-encoding of query strings) are abstracted; everything
the claims quantify over is translated directly from the source.
-/

namespace Daydreamer

/-! ## Basic HTTP model -/

/-- A parsed URL, mirroring the 6-tuple returned by Python's
`urlparse.urlparse`: `(scheme, netloc, path, params, query, fragment)`.
The query component is kept in parsed form (an ordered list of
name/value pairs, as held by a Django `QueryDict`). -/
structure ParsedUrl where
  scheme : String
  netloc : String
  path : String
  params : String
  query : List (String × String)
  fragment : String
deriving Repr, DecidableEq

/-- The `(scheme, netloc)` pair of a URL, matching `parts[:2]` slices in
`daydreamer/core/urlresolvers.py`. -/
def schemeHost (u : ParsedUrl) : String × String := (u.scheme, u.netloc)

/-- Lowercasing of an HTTP method name (`request.method.lower()`). -/
def pyLower (s : String) : String := ⟨s.data.map Char.toLower⟩

/-- Serialization of a parsed query back to a query string, standing in for
`QueryDict.urlencode(safe="/")` (percent-encoding is an external detail). -/
def urlencode (q : List (String × String)) : String :=
  String.intercalate "&" (q.map (fun kv => kv.1 ++ "=" ++ kv.2))

/-- Serialization of a `ParsedUrl` back to a string, following Python's
`urlparse.urlunparse` / `urlunsplit`. -/
def urlunparse (u : ParsedUrl) : String :=
  let url := if u.params ≠ "" then u.path ++ ";" ++ u.params else u.path
  let url :=
    if u.netloc ≠ "" ∨ (url ≠ "" ∧ url.take 2 = "//") then
      "//" ++ u.netloc ++
        (if url ≠ "" ∧ url.take 1 ≠ "/" then "/" ++ url else url)
    else url
  let url := if u.scheme ≠ "" then u.scheme ++ ":" ++ url else url
  let q := urlencode u.query
  let url := if q ≠ "" then url ++ "?" ++ q else url
  if u.fragment ≠ "" then url ++ "#" ++ u.fragment else url

/-- The slice of `django.http.request.HttpRequest` that the embedded code
reads: method, secure flag, host, authentication state of the user, and
the fully qualified current URL (`build_absolute_uri()`), kept parsed. -/
structure HttpRequest where
  method : String
  is_secure : Bool
  host : String
  user_is_authenticated : Bool
  absolute_uri : ParsedUrl
deriving Repr, DecidableEq

/-- The `(scheme, host)` pair derived from an optional request in
`simplify_redirect`: `("https" if request.is_secure() else "http",
request.get_host())`, or `("", "")` when no request is given. -/
def requestPair (request : Option HttpRequest) : String × String :=
  match request with
  | some r => ((if r.is_secure then "https" else "http"), r.host)
  | none => ("", "")

/-! ## URL helpers (`daydreamer/core/urlresolvers.py`) -/

/-- The body of `simplify_redirect(redirect, source, request=None)`, acting
on already-parsed URLs (the source function parses its string arguments,
manipulates the tuples exactly as below, and unparses the result).
When the redirect URL carries a scheme+host pair that equals the source
URL's pair, or equals the request's pair while the source URL's pair is
empty, the scheme and host are dropped from the redirect URL. -/
def simplify_redirect (redirect source : ParsedUrl)
    (request : Option HttpRequest) : ParsedUrl :=
  let empty : String × String := ("", "")
  if schemeHost redirect ≠ empty ∧
      (schemeHost redirect = schemeHost source ∨
        (schemeHost redirect = requestPair request ∧
          schemeHost source = empty)) then
    { redirect with scheme := "", netloc := "" }
  else redirect

/-- The body of `update_query(url, data)` for a single-entry data mapping:
the URL's query component is updated with the new pair
(`QueryDict.update` appends the value under the given name). -/
def update_query (url : ParsedUrl) (name value : String) : ParsedUrl :=
  { url with query := url.query ++ [(name, value)] }

/-- The scheme selected by `reverse` when qualifying a URL:
the explicit scheme argument, else "https"/"http" from the request,
else "http". -/
def reverseScheme (scheme : Option String)
    (request : Option HttpRequest) : String :=
  match scheme with
  | some s => s
  | none =>
    match request with
    | some r => if r.is_secure then "https" else "http"
    | none => "http"

/-- The host selected by `reverse` when qualifying a URL: the request's
host, else the current `Site` object's domain (an external collaborator,
passed in as `site`). -/
def reverseHost (request : Option HttpRequest) (site : String) : String :=
  match request with
  | some r => r.host
  | none => site

/-- The fully qualified `"{scheme}://{host}{url}"` string that
`reverse` formats when `qualified` is true. -/
def qualifiedUrl (scheme : Option String) (request : Option HttpRequest)
    (site : String) (url : String) : String :=
  reverseScheme scheme request ++ "://" ++ reverseHost request site ++ url

/-- The body of `reverse(viewname, qualified=False, scheme=None,
request=None, **kwargs)`. The underlying framework reversal
(`django.core.urlresolvers.reverse`) is the function argument
`underlying`. When `qualified` is true the source formats the fully
qualified string into a local variable `path`, but the `return`
statement returns `url`. -/
def reverse (underlying : String → String) (site : String)
    (viewname : String) (qualified : Bool) (scheme : Option String)
    (request : Option HttpRequest) : String :=
  let url := underlying viewname
  let _path := if qualified then qualifiedUrl scheme request site url else url
  url

/-! ## The deny/allow decision chain (`daydreamer/views/core/base.py`)

A composed view's `get_deny_handler` resolves through the method
resolution order: each participating mixin is compiled as
`not test() and handler or super().get_deny_handler()`, and the base
class `Deny.get_deny_handler` returns `None`. We model the chain as the
ordered list of participants, each contributing the boolean value of its
test and its (always truthy) bound handler. -/

/-- One participant in the cooperative deny chain: the value of its
predicate for the current request and its denial handler. -/
structure Participant (H : Type) where
  test : Bool
  handler : H
deriving Repr, DecidableEq

/-- The cooperative `get_deny_handler` chain: each participant returns its
own handler when its test fails (`not test() and handler or super()`),
otherwise defers to the next participant; the terminal base case
(`Deny.get_deny_handler`) returns `None`. -/
def get_deny_handler {H : Type} : List (Participant H) → Option H
  | [] => none
  | p :: ps => if p.test then get_deny_handler ps else some p.handler

/-- The dispatch of `Deny.dispatch`: call the first deny handler found by
the chain, falling back to the inherited dispatch (`Null.dispatch`, which
invokes `http_method_not_allowed`) represented by `fallback`. -/
def deny_dispatch {H : Type} (chain : List (Participant H))
    (fallback : H) : H :=
  (get_deny_handler chain).getD fallback

/-! ## The `Denial` behavior framework
(`daydreamer/views/core/behaviors.py`)

The source resolves each behavior option by a dynamic attribute lookup
`getattr(self, "_".join((p, attr)))` on the view instance. The embedding
replaces the stringly-typed lookup with a record holding the raw
attribute values; Python falsiness of each raw value is represented by
`Option` (or the empty string for string-valued options). -/

/-- Exceptions that the embedded code can raise. `permissionDenied`
stands for `django.core.exceptions.PermissionDenied`, the default denial
exception; `custom n` stands for any other configured exception. -/
inductive Exc where
  | permissionDenied
  | http404
  | suspiciousOperation
  | systemExit
  | nameError (nm : String)
  | valueError (msg : String)
  | custom (n : Nat)
deriving Repr, DecidableEq

/-- The raw `<p>_*` attribute values read by `deny(p)` for a behavior
with attribute name head `p`. A `none` (or `""`) value is a falsy Python
attribute value. -/
structure DenialConfig where
  raiseDeny : Bool
  exception : Option Exc
  message : String
  message_level : Option Nat
  message_tags : String
  redirect_url : Option ParsedUrl
  redirect_next_url : Option ParsedUrl
  redirect_next_name : Option String
deriving Repr, DecidableEq

/-- External configuration read by the denial framework: the value of
`settings.LOGIN_URL` after URL reversal (`get_denial_redirect_url`
falls back to it when the configured redirect URL is falsy). -/
structure Settings where
  resolved_login_url : ParsedUrl
deriving Repr, DecidableEq

/-- The level constant `django.contrib.messages.WARNING`. -/
def WARNING : Nat := 30

/-- Resolution of the exception to raise (`get_denial_exception`):
the configured exception, defaulting to `PermissionDenied` when falsy. -/
def get_denial_exception (cfg : DenialConfig) : Exc :=
  cfg.exception.getD Exc.permissionDenied

/-- Resolution of the message level (`get_denial_message_level`):
the configured level, defaulting to `WARNING` when falsy (the integer
`0` and `None` are both falsy). -/
def get_denial_message_level (cfg : DenialConfig) : Nat :=
  match cfg.message_level with
  | some n => if n = 0 then WARNING else n
  | none => WARNING

/-- Resolution of the message tags (`get_denial_message_tags`):
the configured tags, defaulting to the empty string when falsy. -/
def get_denial_message_tags (cfg : DenialConfig) : String :=
  cfg.message_tags

/-- Resolution of the redirect URL (`get_denial_redirect_url`):
the configured URL, defaulting to the resolved `settings.LOGIN_URL`
when falsy. -/
def get_denial_redirect_url (cfg : DenialConfig) (st : Settings) :
    ParsedUrl :=
  cfg.redirect_url.getD st.resolved_login_url

/-- Resolution of the next URL (`get_denial_redirect_next_url`):
the configured URL, defaulting to the request's fully qualified URL
(`request.build_absolute_uri()`) when falsy. -/
def get_denial_redirect_next_url (cfg : DenialConfig)
    (req : HttpRequest) : ParsedUrl :=
  cfg.redirect_next_url.getD req.absolute_uri

/-- The body of `get_denial_full_redirect_url`: when the next-parameter
name is truthy, update the redirect URL's query string with the
simplified next URL; otherwise return the redirect URL unchanged. -/
def get_denial_full_redirect_url (cfg : DenialConfig) (st : Settings)
    (req : HttpRequest) : ParsedUrl :=
  let redirect_url := get_denial_redirect_url cfg st
  match cfg.redirect_next_name with
  | some next_name =>
    if next_name = "" then redirect_url
    else
      update_query redirect_url next_name
        (urlunparse
          (simplify_redirect (get_denial_redirect_next_url cfg req)
            redirect_url (some req)))
  | none => redirect_url

/-- Observable actions performed by `deny()`: enqueuing a message on the
messages collaborator (`denial_enqueue_message`) and building the
redirect response (`denial_respond`). -/
inductive DenyEvent where
  | enqueued (message : String) (level : Nat) (tags : String)
  | responded (url : ParsedUrl)
deriving Repr, DecidableEq

/-- The body of `denial_raise_exception`: when the raw raise flag is
truthy, raise the resolved exception (returned as `some`). -/
def denial_raise_exception (cfg : DenialConfig) : Option Exc :=
  if cfg.raiseDeny then some (get_denial_exception cfg) else none

/-- The body of `denial_enqueue_message`: when the resolved message is
truthy, enqueue it with the resolved level and tags (the returned list
holds the calls made to `messages.add_message`). -/
def denial_enqueue_message (cfg : DenialConfig) : List DenyEvent :=
  if cfg.message ≠ "" then
    [DenyEvent.enqueued cfg.message (get_denial_message_level cfg)
      (get_denial_message_tags cfg)]
  else []

/-- The body of `denial_respond`: an `HttpResponseRedirect` to the full
redirect URL. -/
def denial_respond (cfg : DenialConfig) (st : Settings)
    (req : HttpRequest) : ParsedUrl :=
  get_denial_full_redirect_url cfg st req

/-- The body of `deny(p)`: run the raise step, then the message step,
then the respond step, in order.  The result pairs the ordered trace of
observable events with either the raised exception or the redirect
response URL; an exception raised in the first step aborts the later
steps, so the trace stays empty. -/
def deny (cfg : DenialConfig) (st : Settings) (req : HttpRequest) :
    List DenyEvent × Except Exc ParsedUrl :=
  match denial_raise_exception cfg with
  | some e => ([], Except.error e)
  | none =>
    let url := denial_respond cfg st req
    (denial_enqueue_message cfg ++ [DenyEvent.responded url],
      Except.ok url)

/-! ## HTTP-method gates (`daydreamer/views/core/http.py`) and the
composed login-required view (`daydreamer/views/behaviors/auth.py`) -/

/-- The attributes of a view composed from the `LoginRequired` behavior
and the HTTP-method gates: the `login_required` switch, its
`login_required_*` denial configuration, the declared allowed method
names (`http_method_names`, as returned by `get_http_method_names`),
and the names of the HTTP verbs for which a callable handler method is
defined on the view. -/
structure ViewConfig where
  login_required : Bool
  login_denial : DenialConfig
  http_method_names : List String
  implemented_methods : List String
deriving Repr, DecidableEq

/-- The body of `HttpMethodDeny.http_method_deny_test`: the lowercased
request method is in the allowed method names and the correspondingly
named attribute on the view is callable. -/
def http_method_deny_test (v : ViewConfig) (req : HttpRequest) : Bool :=
  v.http_method_names.contains (pyLower req.method) &&
    v.implemented_methods.contains (pyLower req.method)

/-- The body of `HttpMethodAllow.http_method_allow_test`: the hook's
default implementation returns `True` unconditionally. -/
def http_method_allow_test (_v : ViewConfig) (_req : HttpRequest) :
    Bool := true

/-- Handlers selectable by the decision chains of the composed view. -/
inductive HandlerTag where
  | loginRequiredDenied
  | httpMethodNotAllowed
  | methodHandler (name : String)
deriving Repr, DecidableEq

/-- The body of `HttpMethodAllow.get_allow_handler`:
`test() and getattr(self, method, None) or http_method_not_allowed` —
the method handler when the test passes and the attribute is truthy,
falling back to `http_method_not_allowed`. -/
def get_allow_handler (v : ViewConfig) (req : HttpRequest) :
    HandlerTag :=
  if http_method_allow_test v req &&
      v.implemented_methods.contains (pyLower req.method) then
    HandlerTag.methodHandler (pyLower req.method)
  else HandlerTag.httpMethodNotAllowed

/-- The body of `LoginRequired.login_required_test`: passes when the
check is disabled or the user is authenticated. -/
def login_required_test (v : ViewConfig) (req : HttpRequest) : Bool :=
  !v.login_required || req.user_is_authenticated

/-- The deny chain of a view composing `LoginRequired` before
`HttpMethodDeny` (method resolution order): `LoginRequired`'s
participant first, then `HttpMethodDeny`'s, then the terminal
`Deny.get_deny_handler` returning `None`. -/
def loginView_deny_chain (v : ViewConfig) (req : HttpRequest) :
    List (Participant HandlerTag) :=
  [⟨login_required_test v req, HandlerTag.loginRequiredDenied⟩,
   ⟨http_method_deny_test v req, HandlerTag.httpMethodNotAllowed⟩]

/-- The dispatch of the composed view: the first failing deny
participant's handler, falling back (`Null.dispatch`) to
`http_method_not_allowed`. -/
def loginView_dispatch (v : ViewConfig) (req : HttpRequest) :
    HandlerTag :=
  deny_dispatch (loginView_deny_chain v req)
    HandlerTag.httpMethodNotAllowed

/-- HTTP responses produced by the embedded handlers. -/
inductive HttpResponse where
  | redirect (url : ParsedUrl)
  | methodNotAllowed
  | handler404
  | handler403
  | handler400
  | serverError
  | content (n : Nat)
deriving Repr, DecidableEq

/-- Running the handler selected by the composed view's dispatch:
`login_required_denied` runs `deny("login_required")`;
`http_method_not_allowed` produces the 405 response; a verb handler
produces the view's content. The trace records messages enqueued and
responses built. -/
def run_handler (v : ViewConfig) (st : Settings) (req : HttpRequest) :
    HandlerTag → List DenyEvent × Except Exc HttpResponse
  | HandlerTag.loginRequiredDenied =>
    let out := deny v.login_denial st req
    (out.1, out.2.map HttpResponse.redirect)
  | HandlerTag.httpMethodNotAllowed =>
    ([], Except.ok HttpResponse.methodNotAllowed)
  | HandlerTag.methodHandler _ => ([], Except.ok (HttpResponse.content 0))

/-! ## The request-pipeline handler (`daydreamer/core/handlers/base.py`) -/

/-- A resolver match: the `(view, args, kwargs)` triple returned by
`resolver.resolve(request.path_info)`. The components are opaque to the
handler; we give them simple concrete carriers. -/
structure ResolverMatch where
  view : Nat
  args : List Nat
  kwargs : List (String × Nat)
deriving Repr, DecidableEq

/-- The slice of the request state that `resolve_view` reads and writes:
the path used for resolution and the mutable `resolver_match` annotation
slot (`none` models both a missing attribute and an attribute set to
`None`, which the source treats alike). -/
structure PipelineRequest where
  path_info : String
  resolver_match : Option ResolverMatch
deriving Repr, DecidableEq

/-- The body of `get_resolver_match(request, resolver)`: resolve the
request's path with the URL resolver (an external collaborator, passed
as a function). -/
def get_resolver_match (resolver : String → ResolverMatch)
    (req : PipelineRequest) : ResolverMatch :=
  resolver req.path_info

/-- The body of `resolve_view(request, resolver)`: when the request has
no cached `resolver_match`, resolve and store it; return the cached
match. The result also carries the updated request state and how many
times the URL resolver was invoked during this call. -/
def resolve_view (resolver : String → ResolverMatch)
    (req : PipelineRequest) : ResolverMatch × PipelineRequest × Nat :=
  match req.resolver_match with
  | some m => (m, req, 0)
  | none =>
    let m := get_resolver_match resolver req
    (m, { req with resolver_match := some m }, 1)

/-- The module-level names bound in `daydreamer/core/handlers/base.py`
by its import statements (and module-level assignments), in source
order. The name `types` is referenced by `validate_response` but does
not appear here. -/
def handlersBaseModuleNames : List String :=
  ["collections", "logging", "sys",
   "http", "settings", "exceptions", "signals", "urlresolvers",
   "base", "encoding", "six", "debug",
   "lang",
   "__all__", "logger", "Handler"]

/-- Identifying name of a view for error messages: the function's
`__name__` for a function view, or `ClassName.__call__` for a
callable-class view. -/
structure PyView where
  module : String
  name : String
  isFunction : Bool
deriving Repr, DecidableEq

/-- Evaluation of the error-message expression inside
`validate_response`: the conditional `view.__name__ if
isinstance(view, types.FunctionType) else view.__class__.__name__ +
".__call__"` first resolves the global name `types`; since the module
never imports it, the lookup raises `NameError` before the `ValueError`
message can be formatted. -/
def validate_response_error (view : PyView) : Exc :=
  if handlersBaseModuleNames.contains "types" then
    Exc.valueError
      ("The view " ++ view.module ++ "." ++
        (if view.isFunction then view.name
          else view.name ++ ".__call__") ++
        " didn't return an HttpResponse object.")
  else Exc.nameError "types"

/-- The body of `validate_response(request, resolver, response)`: pass a
truthy response through; for a falsy response, evaluate the error
expression (which decides between raising `ValueError` and failing on
the unresolved name `types`) and raise the outcome. -/
def validate_response (view : PyView) (responseTruthy : Bool)
    (response : HttpResponse) : Except Exc HttpResponse :=
  if responseTruthy then Except.ok response
  else Except.error (validate_response_error view)

/-- The body of `generate_response(request, resolver)`: render the
response, mapping the three framework exceptions to the resolver's
registered handler responses; every other exception propagates. The
outcome of `render_response` is the `rendered` argument. -/
def generate_response (rendered : Except Exc HttpResponse) :
    Except Exc HttpResponse :=
  match rendered with
  | Except.error Exc.http404 => Except.ok HttpResponse.handler404
  | Except.error Exc.permissionDenied => Except.ok HttpResponse.handler403
  | Except.error Exc.suspiciousOperation =>
    Except.ok HttpResponse.handler400
  | out => out

/-- The body of `handle_uncaught_exception`: send the
`got_request_exception` signal, then delegate to the base handler's
implementation, which produces the generic 500 server-error response.
The boolean records that the signal was sent. -/
def handle_uncaught_exception : Bool × HttpResponse :=
  (true, HttpResponse.serverError)

/-- The body of `get_response(request)`: run `process_response` over
`generate_response`; re-raise `SystemExit` (`Except.error ()`), and
convert any other escaping exception with `handle_uncaught_exception`.
The response middleware of `process_response` is the function argument
`process`; the boolean records whether the uncaught-exception signal
was sent. -/
def get_response (process : HttpResponse → HttpResponse)
    (rendered : Except Exc HttpResponse) :
    Bool × Except Unit HttpResponse :=
  match generate_response rendered with
  | Except.ok r => (false, Except.ok (process r))
  | Except.error Exc.systemExit => (false, Except.error ())
  | Except.error _ =>
    let (signaled, resp) := handle_uncaught_exception
    (signaled, Except.ok resp)

/-! ## Example instances used by witnesses and counterexamples -/

/-- A minimal login URL (`/login`), used as the resolved
`settings.LOGIN_URL`. -/
def exLoginUrl : ParsedUrl := ⟨"", "", "/login", "", [], ""⟩

/-- Example settings: the login URL above. -/
def exSettings : Settings := ⟨exLoginUrl⟩

/-- A denial configuration with every option falsy except the next-URL
parameter name (the `LoginRequired` defaults). -/
def exDefaultDenial : DenialConfig :=
  ⟨false, none, "", none, "", none, none, some "next"⟩

/-- An unauthenticated POST request to `/resource/` on
`example.com` over plain HTTP. -/
def exReq : HttpRequest :=
  ⟨"POST", false, "example.com", false,
    ⟨"http", "example.com", "/resource/", "", [], ""⟩⟩

/-- A view that requires login and only implements GET. -/
def exView : ViewConfig :=
  ⟨true, exDefaultDenial, ["get"], ["get"]⟩

end Daydreamer

namespace Daydreamer

/-! ## Claims -/

/-- C1: in the deny chain, if participant k fails its predicate while
every participant before k passes, `get_deny_handler` returns exactly
participant k's handler, independently of the participants after k;
and when every participant passes, the terminal base case returns
`None`. -/
theorem C1_deny_chain_short_circuit :
    (∀ (H : Type) (pre post : List (Participant H)) (p : Participant H),
      (∀ q ∈ pre, q.test = true) → p.test = false →
      get_deny_handler (pre ++ p :: post) = some p.handler) ∧
    (∀ (H : Type) (l : List (Participant H)),
      (∀ q ∈ l, q.test = true) → get_deny_handler l = none) := by
  constructor
  · intro H pre post p hpre hp
    induction pre with
    | nil => simp [get_deny_handler, hp]
    | cons q qs ih =>
      have hq : q.test = true := hpre q (List.mem_cons_self q qs)
      simp only [List.cons_append, get_deny_handler, hq, if_true]
      exact ih (fun r hr => hpre r (List.mem_cons_of_mem q hr))
  · intro H l hl
    induction l with
    | nil => rfl
    | cons q qs ih =>
      have hq : q.test = true := hl q (List.mem_cons_self q qs)
      simp only [get_deny_handler, hq, if_true]
      exact ih (fun r hr => hl r (List.mem_cons_of_mem q hr))

/-- Witness for C1 at a concrete three-participant chain whose second
participant fails, and a concrete all-passing chain. -/
theorem C1_deny_chain_short_circuit_witness :
    get_deny_handler
      [(⟨true, 1⟩ : Participant Nat), ⟨false, 2⟩, ⟨true, 3⟩] = some 2 ∧
    get_deny_handler [(⟨true, 1⟩ : Participant Nat), ⟨true, 2⟩] = none := by
  constructor
  · exact C1_deny_chain_short_circuit.1 Nat [⟨true, 1⟩] [⟨true, 3⟩]
      ⟨false, 2⟩ (by decide) rfl
  · exact C1_deny_chain_short_circuit.2 Nat [⟨true, 1⟩, ⟨true, 2⟩]
      (by decide)

/-- C2: when a request fails both the login-required test and the
HTTP-method deny test on a view that composes the access-control
behavior before the HTTP-method deny gate, the dispatched handler is
the login-required denial handler, the produced outcome is exactly the
denial protocol's outcome, and it is never the method-not-allowed
response. -/
theorem C2_access_denial_precedes_405 (v : ViewConfig) (st : Settings)
    (req : HttpRequest)
    (hlogin : login_required_test v req = false)
    (hmethod : http_method_deny_test v req = false) :
    loginView_dispatch v req = HandlerTag.loginRequiredDenied ∧
    run_handler v st req (loginView_dispatch v req) =
      ((deny v.login_denial st req).1,
        (deny v.login_denial st req).2.map HttpResponse.redirect) ∧
    (run_handler v st req (loginView_dispatch v req)).2 ≠
      Except.ok HttpResponse.methodNotAllowed := by
  have hd : loginView_dispatch v req = HandlerTag.loginRequiredDenied := by
    simp [loginView_dispatch, deny_dispatch, loginView_deny_chain,
      get_deny_handler, hlogin]
  refine ⟨hd, ?_, ?_⟩
  · rw [hd]; rfl
  · rw [hd]
    cases h2 : (deny v.login_denial st req).2 with
    | error e => simp [run_handler, h2, Except.map]
    | ok url => simp [run_handler, h2, Except.map]

/-- Witness for C2: the unauthenticated POST request to a
login-required, GET-only view is dispatched to the login denial, not
to the 405 handler. -/
theorem C2_access_denial_precedes_405_witness :
    login_required_test exView exReq = false ∧
    http_method_deny_test exView exReq = false ∧
    loginView_dispatch exView exReq = HandlerTag.loginRequiredDenied ∧
    (run_handler exView exSettings exReq
      (loginView_dispatch exView exReq)).2 ≠
      Except.ok HttpResponse.methodNotAllowed := by
  have h := C2_access_denial_precedes_405 exView exSettings exReq
    (by decide) (by decide)
  exact ⟨by decide, by decide, h.1, h.2.2⟩

/-- C3: the denial protocol runs raise, message, respond in order: a
truthy raise flag raises the resolved exception with no message
enqueued and no response built; a falsy raise flag with a non-empty
resolved message enqueues exactly one message (with the resolved level
and tags) before building the redirect response; a falsy raise flag
with an empty message builds the redirect response with no message
enqueued. -/
theorem C3_denial_protocol_order (cfg : DenialConfig) (st : Settings)
    (req : HttpRequest) :
    (cfg.raiseDeny = true →
      deny cfg st req = ([], Except.error (get_denial_exception cfg))) ∧
    (cfg.raiseDeny = false → cfg.message ≠ "" →
      deny cfg st req =
        ([DenyEvent.enqueued cfg.message (get_denial_message_level cfg)
            (get_denial_message_tags cfg),
          DenyEvent.responded (denial_respond cfg st req)],
          Except.ok (denial_respond cfg st req))) ∧
    (cfg.raiseDeny = false → cfg.message = "" →
      deny cfg st req =
        ([DenyEvent.responded (denial_respond cfg st req)],
          Except.ok (denial_respond cfg st req))) := by
  refine ⟨?_, ?_, ?_⟩
  · intro hr
    simp [deny, denial_raise_exception, hr]
  · intro hr hm
    simp [deny, denial_raise_exception, hr, denial_enqueue_message, hm]
  · intro hr hm
    simp [deny, denial_raise_exception, hr, denial_enqueue_message, hm]

/-- Witness for C3 at three concrete configurations: raising enabled,
message configured, and all-defaults. -/
theorem C3_denial_protocol_order_witness :
    (deny ⟨true, none, "Please log in", none, "", none, none, some "next"⟩
        exSettings exReq =
      ([], Except.error Exc.permissionDenied)) ∧
    (deny ⟨false, none, "Please log in", none, "", none, none, some "next"⟩
        exSettings exReq =
      ([DenyEvent.enqueued "Please log in" 30 "",
        DenyEvent.responded (denial_respond
          ⟨false, none, "Please log in", none, "", none, none, some "next"⟩
          exSettings exReq)],
        Except.ok (denial_respond
          ⟨false, none, "Please log in", none, "", none, none, some "next"⟩
          exSettings exReq))) ∧
    (deny exDefaultDenial exSettings exReq =
      ([DenyEvent.responded (denial_respond exDefaultDenial exSettings
          exReq)],
        Except.ok (denial_respond exDefaultDenial exSettings exReq))) := by
  refine ⟨?_, ?_, ?_⟩
  · exact (C3_denial_protocol_order
      ⟨true, none, "Please log in", none, "", none, none, some "next"⟩
      exSettings exReq).1 rfl
  · exact (C3_denial_protocol_order
      ⟨false, none, "Please log in", none, "", none, none, some "next"⟩
      exSettings exReq).2.1 rfl (by decide)
  · exact (C3_denial_protocol_order exDefaultDenial exSettings
      exReq).2.2 rfl rfl

/-- C4: the claim expects a `ValueError` naming the view, but the error
expression references the global name `types`, which the module never
imports, so a falsy view response raises `NameError` instead and the
`ValueError` branch is unreachable. Stated at a concrete function view
returning a falsy response. -/
theorem C4_validate_response_raises_name_error :
    validate_response ⟨"myapp.views", "my_view", true⟩ false
        (HttpResponse.content 0) =
      Except.error (Exc.nameError "types") ∧
    (∀ msg : String,
      validate_response ⟨"myapp.views", "my_view", true⟩ false
          (HttpResponse.content 0) ≠
        Except.error (Exc.valueError msg)) := by
  constructor
  · rfl
  · intro msg
    simp [validate_response, validate_response_error,
      handlersBaseModuleNames]

/-- The HTTP-method predicate exactly as the spec words it: the
request's method, lowercased, is in the view's declared allowed-method
set and a correspondingly named handler method exists and is callable
on the view. Used to compare the two gates against the spec. -/
def spec_http_method_predicate (v : ViewConfig) (req : HttpRequest) :
    Bool :=
  v.http_method_names.contains (pyLower req.method) &&
    v.implemented_methods.contains (pyLower req.method)

/-- A view declaring GET and POST but implementing only a handler named
`foo`, used to separate the two gates' tests. -/
def exGateView : ViewConfig :=
  ⟨false, exDefaultDenial, ["get", "post"], ["foo"]⟩

/-- A request with method FOO. -/
def exGateReq : HttpRequest :=
  ⟨"FOO", false, "example.com", true,
    ⟨"http", "example.com", "/resource/", "", [], ""⟩⟩

/-- Counterexample to C5: on a concrete view and request, the
allow-style gate's test is true while the spec's predicate (and the
deny-style gate's test) is false, so the two gates are not driven by
the same predicate and the allow-style test is not extensionally equal
to the deny-style test. -/
theorem C5_counterexample_allow_test_not_predicate :
    http_method_allow_test exGateView exGateReq = true ∧
    spec_http_method_predicate exGateView exGateReq = false ∧
    http_method_allow_test exGateView exGateReq ≠
      http_method_deny_test exGateView exGateReq := by
  refine ⟨rfl, by decide, ?_⟩
  intro h
  have hd : http_method_deny_test exGateView exGateReq = true := h.symm
  exact absurd hd (by decide)

/-- C5 amended: only the deny-style gate's test equals the spec's
predicate; the allow-style gate's test hook returns true
unconditionally, so the two tests coincide exactly on the requests
that pass the deny-style predicate. -/
theorem C5_gate_predicates_amended (v : ViewConfig) (req : HttpRequest) :
    http_method_deny_test v req = spec_http_method_predicate v req ∧
    http_method_allow_test v req = true ∧
    ((http_method_allow_test v req = http_method_deny_test v req) ↔
      http_method_deny_test v req = true) := by
  refine ⟨rfl, rfl, ?_⟩
  constructor
  · intro h
    exact h.symm
  · intro h
    rw [h]; rfl

/-- Witness for the amended C5 at a concrete view and request on which
the two tests agree. -/
theorem C5_gate_predicates_amended_witness :
    http_method_deny_test exView
        ⟨"GET", false, "example.com", true,
          ⟨"http", "example.com", "/resource/", "", [], ""⟩⟩ = true ∧
    http_method_allow_test exView
        ⟨"GET", false, "example.com", true,
          ⟨"http", "example.com", "/resource/", "", [], ""⟩⟩ =
      http_method_deny_test exView
        ⟨"GET", false, "example.com", true,
          ⟨"http", "example.com", "/resource/", "", [], ""⟩⟩ := by
  refine ⟨by decide, ?_⟩
  exact (C5_gate_predicates_amended exView
    ⟨"GET", false, "example.com", true,
      ⟨"http", "example.com", "/resource/", "", [], ""⟩⟩).2.2.mpr
    (by decide)

/-- The next-URL of the C6 counterexample: an absolute URL on the
request's scheme and host. -/
def exNext : ParsedUrl := ⟨"http", "example.com", "/a", "", [], ""⟩

/-- The redirect URL of the C6 counterexample: an absolute URL on a
different scheme and host. -/
def exRedirectUrl : ParsedUrl :=
  ⟨"https", "other.com", "/login", "", [], ""⟩

/-- A denial configuration carrying the two URLs above. -/
def exCfgAbsolute : DenialConfig :=
  ⟨false, none, "", none, "", some exRedirectUrl, some exNext, some "next"⟩

/-- Counterexample to C6: the next-URL shares scheme+host with the
current request, yet because the redirect URL carries its own
(different) scheme and host, `simplify_redirect` leaves the next-URL
untouched and the full redirect URL's query parameter keeps the scheme
and host — the stripping does not occur independently of the redirect
URL. -/
theorem C6_counterexample_request_match_not_stripped :
    schemeHost exNext = requestPair (some exReq) ∧
    simplify_redirect exNext exRedirectUrl (some exReq) = exNext ∧
    schemeHost (simplify_redirect exNext exRedirectUrl (some exReq)) ≠
      ("", "") ∧
    (get_denial_full_redirect_url exCfgAbsolute exSettings exReq).query =
      [("next", "http://example.com/a")] := by
  refine ⟨by decide, by decide, by decide, by decide⟩

/-- C6 amended: the appended next-URL is stripped of scheme and host
exactly when it shares scheme+host with the resolved redirect URL, or
when it shares scheme+host with the current request while the redirect
URL itself carries no scheme and host; and the full redirect URL's
query receives the simplified next-URL under the configured parameter
name. -/
theorem C6_simplification_condition_amended :
    (∀ (next src : ParsedUrl) (req : HttpRequest),
      schemeHost next ≠ ("", "") →
      (schemeHost (simplify_redirect next src (some req)) = ("", "") ↔
        (schemeHost next = schemeHost src ∨
          (schemeHost next = requestPair (some req) ∧
            schemeHost src = ("", ""))))) ∧
    (∀ (cfg : DenialConfig) (st : Settings) (req : HttpRequest)
        (src next : ParsedUrl) (nm : String),
      cfg.redirect_next_name = some nm → nm ≠ "" →
      cfg.redirect_url = some src → cfg.redirect_next_url = some next →
      (get_denial_full_redirect_url cfg st req).query =
        src.query ++
          [(nm, urlunparse (simplify_redirect next src (some req)))]) := by
  constructor
  · intro next src req h
    by_cases hc : (schemeHost next = schemeHost src ∨
      (schemeHost next = requestPair (some req) ∧
        schemeHost src = ("", "")))
    · have : simplify_redirect next src (some req) =
          { next with scheme := "", netloc := "" } := by
        simp only [simplify_redirect, if_pos (And.intro h hc)]
      rw [this]
      exact iff_of_true rfl hc
    · have : simplify_redirect next src (some req) = next := by
        simp only [simplify_redirect]
        rw [if_neg (fun hcontra => hc hcontra.2)]
      rw [this]
      simp only [hc, iff_false]
      exact h
  · intro cfg st req src next nm hname hnm hurl hnext
    simp [get_denial_full_redirect_url, hname, hnm,
      get_denial_redirect_url, hurl, get_denial_redirect_next_url,
      hnext, update_query]

/-- Witness for the amended C6: the next-URL sharing scheme+host with
the redirect URL is stripped, and the concrete configuration appends
the simplified value under the configured name. -/
theorem C6_simplification_condition_amended_witness :
    schemeHost exNext ≠ ("", "") ∧
    schemeHost
        (simplify_redirect exNext
          ⟨"http", "example.com", "/login", "", [], ""⟩ (some exReq)) =
      ("", "") ∧
    (get_denial_full_redirect_url exCfgAbsolute exSettings exReq).query =
      exRedirectUrl.query ++
        [("next",
          urlunparse (simplify_redirect exNext exRedirectUrl
            (some exReq)))] := by
  refine ⟨by decide, ?_, ?_⟩
  · exact (C6_simplification_condition_amended.1 exNext
      ⟨"http", "example.com", "/login", "", [], ""⟩ exReq
      (by decide)).mpr (Or.inl (by decide))
  · exact C6_simplification_condition_amended.2 exCfgAbsolute exSettings
      exReq exRedirectUrl exNext "next" rfl (by decide) rfl rfl

/-- C7: simplification strips scheme and host from a next-URL sharing
them with the redirect target, is a no-op on a relative next-URL, and
is idempotent. -/
theorem C7_simplify_strip_noop_idempotent :
    (∀ (next src : ParsedUrl) (req : Option HttpRequest),
      schemeHost next = schemeHost src →
      schemeHost (simplify_redirect next src req) = ("", "")) ∧
    (∀ (next src : ParsedUrl) (req : Option HttpRequest),
      schemeHost next = ("", "") →
      simplify_redirect next src req = next) ∧
    (∀ (next src : ParsedUrl) (req : Option HttpRequest),
      simplify_redirect (simplify_redirect next src req) src req =
        simplify_redirect next src req) := by
  refine ⟨?_, ?_, ?_⟩
  · intro next src req h
    by_cases he : schemeHost next = ("", "")
    · have : simplify_redirect next src req = next := by
        simp only [simplify_redirect]
        rw [if_neg (fun hcontra => hcontra.1 he)]
      rw [this]
      exact he
    · have : simplify_redirect next src req =
          { next with scheme := "", netloc := "" } := by
        simp only [simplify_redirect, if_pos (And.intro he (Or.inl h))]
      rw [this]
      rfl
  · intro next src req h
    simp only [simplify_redirect]
    rw [if_neg (fun hcontra => hcontra.1 h)]
  · intro next src req
    by_cases hc : (schemeHost next ≠ ("", "") ∧
      (schemeHost next = schemeHost src ∨
        (schemeHost next = requestPair req ∧
          schemeHost src = ("", ""))))
    · have h1 : simplify_redirect next src req =
          { next with scheme := "", netloc := "" } := by
        simp only [simplify_redirect, if_pos hc]
      rw [h1]
      simp only [simplify_redirect]
      rw [if_neg (fun hcontra => hcontra.1 rfl)]
    · have h1 : simplify_redirect next src req = next := by
        simp only [simplify_redirect, if_neg hc]
      rw [h1]
      simp only [simplify_redirect, if_neg hc]

/-- Witness for C7 at concrete URLs: a shared-scheme-host pair is
stripped, a relative next-URL is untouched, and a second application
changes nothing. -/
theorem C7_simplify_strip_noop_idempotent_witness :
    schemeHost exNext =
      schemeHost ⟨"http", "example.com", "/login", "", [], ""⟩ ∧
    schemeHost (simplify_redirect exNext
      ⟨"http", "example.com", "/login", "", [], ""⟩ none) = ("", "") ∧
    simplify_redirect ⟨"", "", "/a", "", [], ""⟩ exRedirectUrl none =
      ⟨"", "", "/a", "", [], ""⟩ ∧
    simplify_redirect
        (simplify_redirect exNext exRedirectUrl (some exReq))
        exRedirectUrl (some exReq) =
      simplify_redirect exNext exRedirectUrl (some exReq) := by
  refine ⟨by decide, ?_, ?_, ?_⟩
  · exact C7_simplify_strip_noop_idempotent.1 exNext
      ⟨"http", "example.com", "/login", "", [], ""⟩ none (by decide)
  · exact C7_simplify_strip_noop_idempotent.2.1
      ⟨"", "", "/a", "", [], ""⟩ exRedirectUrl none (by decide)
  · exact C7_simplify_strip_noop_idempotent.2.2 exNext exRedirectUrl
      (some exReq)

/-- C8: the resolver match is computed at most once per request: the
first `resolve_view` call on a request with no cached match resolves
once and stores the triple on the request; a second call on the
resulting request returns the identical stored triple with zero
resolver invocations; and in general any call on a request that
already carries a cached triple returns it unchanged without
resolving. -/
theorem C8_resolver_match_cached_once
    (resolver : String → ResolverMatch) (req : PipelineRequest)
    (h : req.resolver_match = none) :
    (resolve_view resolver req).1 = resolver req.path_info ∧
    (resolve_view resolver req).2.1.resolver_match =
      some (resolve_view resolver req).1 ∧
    (resolve_view resolver req).2.2 = 1 ∧
    resolve_view resolver (resolve_view resolver req).2.1 =
      ((resolve_view resolver req).1,
        (resolve_view resolver req).2.1, 0) ∧
    (∀ (r : PipelineRequest) (m : ResolverMatch),
      r.resolver_match = some m → resolve_view resolver r = (m, r, 0)) := by
  refine ⟨?_, ?_, ?_, ?_, ?_⟩
  · simp [resolve_view, h, get_resolver_match]
  · simp [resolve_view, h, get_resolver_match]
  · simp [resolve_view, h]
  · simp [resolve_view, h, get_resolver_match]
  · intro r m hm
    simp [resolve_view, hm]

/-- Witness for C8 at a concrete resolver and request: the second call
returns the cached triple with zero resolver invocations. -/
theorem C8_resolver_match_cached_once_witness :
    (⟨"/resource/", none⟩ : PipelineRequest).resolver_match = none ∧
    (resolve_view (fun p => ⟨p.length, [], []⟩)
      ⟨"/resource/", none⟩).2.2 = 1 ∧
    resolve_view (fun p => ⟨p.length, [], []⟩)
        (resolve_view (fun p => ⟨p.length, [], []⟩)
          ⟨"/resource/", none⟩).2.1 =
      ((resolve_view (fun p => ⟨p.length, [], []⟩)
          ⟨"/resource/", none⟩).1,
        (resolve_view (fun p => ⟨p.length, [], []⟩)
          ⟨"/resource/", none⟩).2.1, 0) := by
  have h := C8_resolver_match_cached_once
    (fun p => ⟨p.length, [], []⟩) ⟨"/resource/", none⟩ rfl
  exact ⟨rfl, h.2.2.1, h.2.2.2.1⟩

/-- C9: in `get_response`, an escaping `SystemExit` is re-raised
unconditionally — no signal is sent and no response is produced — while
any other escaping exception that is not one of the mapped
404/403/400 kinds is first signaled to the `got_request_exception`
hook and then converted to the generic server-error response. -/
theorem C9_uncaught_exception_handling :
    (∀ (process : HttpResponse → HttpResponse),
      get_response process (Except.error Exc.systemExit) =
        (false, Except.error ())) ∧
    (∀ (process : HttpResponse → HttpResponse) (e : Exc),
      e ≠ Exc.systemExit → e ≠ Exc.http404 →
      e ≠ Exc.permissionDenied → e ≠ Exc.suspiciousOperation →
      get_response process (Except.error e) =
        (true, Except.ok HttpResponse.serverError)) := by
  constructor
  · intro process
    rfl
  · intro process e h1 h2 h3 h4
    cases e with
    | permissionDenied => exact absurd rfl h3
    | http404 => exact absurd rfl h2
    | suspiciousOperation => exact absurd rfl h4
    | systemExit => exact absurd rfl h1
    | nameError nm => rfl
    | valueError msg => rfl
    | custom n => rfl

/-- Witness for C9: `SystemExit` is re-raised and a concrete unmapped
exception is signaled and converted to the server-error response. -/
theorem C9_uncaught_exception_handling_witness :
    get_response id (Except.error Exc.systemExit) =
      (false, Except.error ()) ∧
    get_response id (Except.error (Exc.custom 7)) =
      (true, Except.ok HttpResponse.serverError) := by
  constructor
  · exact C9_uncaught_exception_handling.1 id
  · exact C9_uncaught_exception_handling.2 id (Exc.custom 7)
      (by decide) (by decide) (by decide) (by decide)

/-- C10: `reverse` returns the underlying unqualified reversal for
every combination of the `qualified`, `scheme` and `request`
arguments; the fully qualified string is constructed but never
returned (at a concrete input the constructed string differs from the
returned one). -/
theorem C10_reverse_never_qualifies :
    (∀ (underlying : String → String) (site viewname : String)
        (qualified : Bool) (scheme : Option String)
        (request : Option HttpRequest),
      reverse underlying site viewname qualified scheme request =
        underlying viewname) ∧
    qualifiedUrl none none "example.com" "/p" ≠ "/p" := by
  constructor
  · intro underlying site viewname qualified scheme request
    rfl
  · decide

end Daydreamer
